import Mathlib

/-!
Verification of the trust-bootstrap and state-persistence core of
torbrowser-launcher (`torbrowser_launcher/common.py`).

The development shallowly embeds the functions of `Common` that the
specification's claims are about:

* `import_key_and_check_status` (KeyringManager.importKey),
* `refresh_keyring` (KeyRefresher.refresh),
* `load_mirrors` (MirrorRegistry.load),
* `load_settings` / `save_settings` (SettingsStore.load/save),
* the `fingerprints` registry built in `build_paths`.

External effects (the GnuPG engine, the HTTP fetch, the file system) are
passed in explicitly as values describing their observable behaviour;
Python exceptions escaping a function are modelled by `Except.error`.
-/

/-! ## Fingerprint registry (`Common.build_paths`, lines 159-164)

The registry maps the two logical key names that appear in
`paths["signing_keys"]` to their pinned fingerprint.  In the source both
entries receive the same constant. -/

/-- The two logical key names in `paths["signing_keys"]`. -/
inductive KeyName where
  | tor_browser_developers
  | wkd_tmp
deriving DecidableEq, Repr

/-- `tor_browser_developers_fingerprint` from `build_paths`. -/
def tor_browser_developers_fingerprint : String :=
  "EF6E286DDA85EA2A4BA7DE684E2C6E8793298290"

/-- `self.fingerprints`: both names map to the same pinned fingerprint. -/
def fingerprints : KeyName → String
  | .tor_browser_developers => tor_browser_developers_fingerprint
  | .wkd_tmp => tor_browser_developers_fingerprint

/-! ## GnuPG engine behaviour

`import_key_and_check_status` interacts with the engine through
`c.op_import` (which may raise) and `c.op_import_result()` (which yields
either `None` or a result object carrying a list of imported keys, each
with a reported fingerprint string `fpr`). -/

/-- One entry of `result.imports`: only the `fpr` field is consulted. -/
structure ImportedKey where
  fpr : String
deriving DecidableEq, Repr

/-- The engine's `op_import_result()` object: its `imports` list. -/
structure GpgImportResult where
  imports : List ImportedKey
deriving DecidableEq, Repr

/-- Observable behaviour of the engine during one import:
`raises` models `c.op_import` raising an exception; `returns r` models a
normal import after which `c.op_import_result()` yields `r`
(`none` standing for Python `None`). -/
inductive EngineBehavior where
  | raises
  | returns (result : Option GpgImportResult)
deriving DecidableEq, Repr

/-- Python's `needle in hay` on strings: substring containment. -/
def pyStrIn (needle hay : String) : Bool :=
  decide (needle.data <:+: hay.data)

/-- `Common.import_key_and_check_status` (lines 255-277).

```python
try:
    c.op_import(gpg.Data(file=str(impkey)))
except:
    return False
result = c.op_import_result()
if result and self.fingerprints[key] in result.imports[0].fpr:
    return True
return False
```

`result.imports[0]` raises an uncaught `IndexError` when `imports` is
empty (the `try` only wraps `op_import`); this is the `.error ()` case. -/
def import_key_and_check_status (key : KeyName) (engine : EngineBehavior) :
    Except Unit Bool :=
  match engine with
  | .raises => .ok false
  | .returns none => .ok false
  | .returns (some result) =>
    match result.imports with
    | [] => .error ()
    | k0 :: _ => .ok (pyStrIn (fingerprints key) k0.fpr)

/-! ## Claims C1, C2, C10: key import and fingerprint checking -/

/-- C2: for every key name and every engine behaviour,
`import_key_and_check_status` should return a boolean failure and never
raise.  The code evaluates `result.imports[0]` outside the `try` block,
so an import result with an empty `imports` list makes an `IndexError`
escape (modelled by `.error ()`) instead of returning `False`. -/
theorem importKey_empty_imports_raises :
    import_key_and_check_status .tor_browser_developers (.returns (some ⟨[]⟩))
      = .error () := rfl

/-- C1 counterexample: a reported fingerprint that strictly contains the
expected one (here with one extra leading character) is accepted by
`import_key_and_check_status`, although it is not equal to the expected
fingerprint — refuting the claim that success occurs only on exact
equality. -/
theorem importKey_superstring_accepted :
    import_key_and_check_status .tor_browser_developers
      (.returns (some ⟨[⟨"AEF6E286DDA85EA2A4BA7DE684E2C6E8793298290"⟩]⟩))
      = .ok true
    ∧ "AEF6E286DDA85EA2A4BA7DE684E2C6E8793298290"
        ≠ tor_browser_developers_fingerprint := by
  refine ⟨?_, by decide⟩
  rfl

/-- C1 (amended): when the engine returns an import result with at least
one imported key, `import_key_and_check_status` succeeds iff the first
imported key's reported fingerprint *contains* the registry's expected
fingerprint as a substring; when the reported fingerprint has exactly 40
characters this containment coincides with exact equality. -/
theorem importKey_success_iff_contains (name : KeyName) (k0 : ImportedKey)
    (rest : List ImportedKey) :
    (import_key_and_check_status name (.returns (some ⟨k0 :: rest⟩)) = .ok true
      ↔ pyStrIn (fingerprints name) k0.fpr = true)
    ∧ (k0.fpr.length = 40 →
      (import_key_and_check_status name (.returns (some ⟨k0 :: rest⟩)) = .ok true
        ↔ k0.fpr = fingerprints name)) := by
  have hred : import_key_and_check_status name (.returns (some ⟨k0 :: rest⟩))
      = .ok (pyStrIn (fingerprints name) k0.fpr) := rfl
  have hfp : (fingerprints name).length = 40 := by cases name <;> decide
  constructor
  · rw [hred]
    simp
  · intro hlen
    rw [hred]
    simp only [Except.ok.injEq]
    constructor
    · intro h
      have hinf : (fingerprints name).data <:+: k0.fpr.data :=
        of_decide_eq_true h
      have hlen2 : (fingerprints name).data.length = k0.fpr.data.length := by
        show (fingerprints name).length = k0.fpr.length
        rw [hfp, hlen]
      exact (String.ext (hinf.eq_of_length hlen2)).symm
    · intro h
      rw [show pyStrIn (fingerprints name) k0.fpr
            = pyStrIn (fingerprints name) (fingerprints name) from by rw [h]]
      exact decide_eq_true List.infix_rfl

/-- C1 witness: instantiating the amended theorem at an exactly matching
40-character fingerprint yields acceptance. -/
theorem importKey_success_iff_contains_witness :
    import_key_and_check_status .wkd_tmp
      (.returns (some ⟨[⟨"EF6E286DDA85EA2A4BA7DE684E2C6E8793298290"⟩]⟩))
      = .ok true :=
  ((importKey_success_iff_contains .wkd_tmp
      ⟨"EF6E286DDA85EA2A4BA7DE684E2C6E8793298290"⟩ []).2 (by decide)).mpr rfl

/-- C10 counterexample: a key fetched by refresh (name `wkd_tmp`) is
accepted although the fingerprint it reports differs from the pinned
fingerprint (it contains it plus a trailing character) — refuting the
"accepted iff it reports the same fingerprint" part of the claim. -/
theorem wkd_key_accepted_without_equal_fingerprint :
    import_key_and_check_status .wkd_tmp
      (.returns (some ⟨[⟨"EF6E286DDA85EA2A4BA7DE684E2C6E87932982900"⟩]⟩))
      = .ok true
    ∧ "EF6E286DDA85EA2A4BA7DE684E2C6E87932982900" ≠ fingerprints .wkd_tmp := by
  refine ⟨?_, by decide⟩
  rfl

/-- C10 (amended): the registry maps both `tor_browser_developers` and
`wkd_tmp` to the identical pinned fingerprint
EF6E286DDA85EA2A4BA7DE684E2C6E8793298290, so a key fetched by refresh is
subject to exactly the acceptance criterion of the packaged pinned key:
`import_key_and_check_status` behaves identically for the two names on
every engine behaviour (acceptance meaning the reported fingerprint
contains the shared pinned fingerprint). -/
theorem fingerprints_shared_and_same_criterion :
    fingerprints .wkd_tmp = "EF6E286DDA85EA2A4BA7DE684E2C6E8793298290"
    ∧ fingerprints .wkd_tmp = fingerprints .tor_browser_developers
    ∧ ∀ engine, import_key_and_check_status .wkd_tmp engine
        = import_key_and_check_status .tor_browser_developers engine := by
  refine ⟨rfl, rfl, ?_⟩
  intro engine
  cases engine with
  | raises => rfl
  | returns r =>
    cases r with
    | none => rfl
    | some result =>
      cases result with
      | mk imports => cases imports <;> rfl

/-! ## Claim C3: `Common.refresh_keyring` (lines 215-253)

The HTTP fetch is passed in as its observable outcome (`status`, `body`);
the temporary key-material file `paths["signing_keys"]["wkd_tmp"]` is the
`wkd_file` component.  `import_called` records whether the engine import
ran at all — the only point at which the keyring can change.  The Python
function ends in a bare `return` on every path, i.e. it returns `None`
(`ret = none`); an exception escaping `import_key_and_check_status`
propagates (`.error`). -/

/-- Observable outcome of one `refresh_keyring` call. -/
structure RefreshOut where
  ret : Option Bool
  wkd_file : Option String
  import_called : Bool
  messages : List String
deriving DecidableEq, Repr

/-- `Common.refresh_keyring`. -/
def refresh_keyring (status : Nat) (body : String) (wkd_file : Option String)
    (engine : EngineBehavior) : Except Unit RefreshOut :=
  let msg0 := "Downloading latest Tor Browser signing key..."
  if status ≠ 200 then
    .ok ⟨none, wkd_file, false,
      [msg0, "Error fetching key, status code = " ++ toString status]⟩
  else
    match import_key_and_check_status .wkd_tmp engine with
    | .error e => .error e
    | .ok imported =>
      .ok ⟨none, some body, true,
        [msg0, if imported then "Key imported successfully"
               else "Key failed to import"]⟩

/-- C3 counterexample: with HTTP status 200 and an engine report whose
fingerprint matches, `import_key_and_check_status` yields `True`, yet
`refresh_keyring` returns `None` (modelled `ret = none`), not the import
outcome — refuting "returns the outcome of importKey as its own result". -/
theorem refresh_keyring_returns_none_on_success :
    refresh_keyring 200 "KEYDATA" none
      (.returns (some ⟨[⟨"EF6E286DDA85EA2A4BA7DE684E2C6E8793298290"⟩]⟩))
      = .ok ⟨none, some "KEYDATA", true,
          ["Downloading latest Tor Browser signing key...",
           "Key imported successfully"]⟩
    ∧ import_key_and_check_status .wkd_tmp
        (.returns (some ⟨[⟨"EF6E286DDA85EA2A4BA7DE684E2C6E8793298290"⟩]⟩))
      = .ok true
    ∧ (none : Option Bool) ≠ some true := by
  refine ⟨rfl, rfl, by decide⟩

/-- C3 (amended): on a non-200 HTTP status, `refresh_keyring` leaves the
temporary key-material file unmodified, never invokes the engine import
(so the keyring is untouched), prints an error and returns `None`; on
status 200 it writes the response body to the temporary file and invokes
`import_key_and_check_status` on it, reporting the import outcome in a
printed message — but returns `None` rather than that outcome. -/
theorem refresh_keyring_behaviour (status : Nat) (body : String)
    (wkd_file : Option String) (engine : EngineBehavior) :
    (status ≠ 200 →
      refresh_keyring status body wkd_file engine
        = .ok ⟨none, wkd_file, false,
            ["Downloading latest Tor Browser signing key...",
             "Error fetching key, status code = " ++ toString status]⟩)
    ∧ (∀ imported, import_key_and_check_status .wkd_tmp engine = .ok imported →
      refresh_keyring 200 body wkd_file engine
        = .ok ⟨none, some body, true,
            ["Downloading latest Tor Browser signing key...",
             if imported then "Key imported successfully"
             else "Key failed to import"]⟩) := by
  constructor
  · intro h
    simp [refresh_keyring, h]
  · intro imported himp
    simp [refresh_keyring, himp]

/-- C3 witness: instantiating the amended theorem at status 404 (engine
irrelevant) and at status 200 with an engine whose import raises
(`import_key_and_check_status` then returns `False`). -/
theorem refresh_keyring_behaviour_witness :
    refresh_keyring 404 "B" none .raises
      = .ok ⟨none, none, false,
          ["Downloading latest Tor Browser signing key...",
           "Error fetching key, status code = 404"]⟩
    ∧ refresh_keyring 200 "B" none .raises
      = .ok ⟨none, some "B", true,
          ["Downloading latest Tor Browser signing key...",
           "Key failed to import"]⟩ := by
  refine ⟨(refresh_keyring_behaviour 404 "B" none .raises).1 (by decide), ?_⟩
  have h := (refresh_keyring_behaviour 200 "B" none .raises).2 false rfl
  simpa using h

/-! ## Claim C5: `Common.load_mirrors` (lines 306-316)

Each entry of `paths["mirrors_txt"]` is passed in as `none` when opening
it raises `FileNotFoundError` (silently skipped) and as `some lines`
otherwise.  `pyStrip` models Python's `str.strip()`: it removes leading
and trailing whitespace characters. -/

/-- Python's `str.strip()`: drop whitespace from both ends. -/
def pyStrip (s : String) : String :=
  ⟨((s.data.dropWhile Char.isWhitespace).reverse.dropWhile
      Char.isWhitespace).reverse⟩

/-- `Common.load_mirrors`. -/
def load_mirrors (files : List (Option (List String))) : List String :=
  List.foldl
    (fun mirrors srcfile =>
      match srcfile with
      | none => mirrors
      | some lines =>
        List.foldl
          (fun mirrors line =>
            let mirror := pyStrip line
            if mirror ∈ mirrors then mirrors else mirrors ++ [mirror])
          mirrors lines)
    [] files

/-- Specification-side deduplication keeping the first occurrence of
each element, in order. -/
def dedupKeepFirst : List String → List String
  | [] => []
  | x :: xs => x :: dedupKeepFirst (xs.filter (fun y => decide (y ≠ x)))
termination_by l => l.length
decreasing_by
  simp only [List.length_cons]
  exact Nat.lt_succ_of_le (List.length_filter_le _ _)

/-- The stream of trimmed lines of the present files, in priority order. -/
def mirrorStream (files : List (Option (List String))) : List String :=
  ((files.filterMap id).flatten).map pyStrip

lemma foldl_insertMirror_eq (l : List String) : ∀ acc : List String,
    List.foldl (fun mirrors m => if m ∈ mirrors then mirrors else mirrors ++ [m])
      acc l
      = acc ++ dedupKeepFirst (l.filter (fun y => decide (y ∉ acc))) := by
  induction l with
  | nil => intro acc; simp [dedupKeepFirst]
  | cons x xs ih =>
    intro acc
    by_cases hx : x ∈ acc
    · simp only [List.foldl_cons, if_pos hx, List.filter_cons,
        decide_eq_true_eq]
      rw [ih acc]
      simp [hx]
    · simp only [List.foldl_cons, if_neg hx, List.filter_cons]
      rw [ih (acc ++ [x])]
      have hpred : (fun y => decide (y ∉ acc ++ [x]))
          = fun y => decide (y ≠ x) && decide (y ∉ acc) := by
        funext y
        simp [List.mem_append, not_or, Bool.and_comm]
      simp only [hpred, ← List.filter_filter]
      simp [hx, dedupKeepFirst]

lemma load_mirrors_foldl_stream (files : List (Option (List String))) :
    ∀ acc : List String,
    List.foldl
      (fun mirrors srcfile =>
        match srcfile with
        | none => mirrors
        | some lines =>
          List.foldl
            (fun mirrors line =>
              let mirror := pyStrip line
              if mirror ∈ mirrors then mirrors else mirrors ++ [mirror])
            mirrors lines)
      acc files
      = List.foldl
          (fun mirrors m => if m ∈ mirrors then mirrors else mirrors ++ [m])
          acc (mirrorStream files) := by
  induction files with
  | nil => intro acc; simp [mirrorStream]
  | cons f fs ih =>
    intro acc
    cases f with
    | none =>
      simp only [List.foldl_cons]
      rw [ih acc]
      simp [mirrorStream]
    | some lines =>
      simp only [List.foldl_cons]
      rw [ih]
      have hstream : mirrorStream (some lines :: fs)
          = lines.map pyStrip ++ mirrorStream fs := by
        simp [mirrorStream]
      rw [hstream, List.foldl_append, List.foldl_map]

/-- C5 counterexample: a blank line is *not* dropped by `load_mirrors`;
after trimming it is appended as the empty string (once), so the result
is not the list of distinct non-empty lines the claim describes. -/
theorem load_mirrors_keeps_empty_line :
    load_mirrors [some ["https://a.example/", "", "https://b.example/"]]
      = ["https://a.example/", "", "https://b.example/"]
    ∧ "" ∈ load_mirrors [some ["https://a.example/", "", "https://b.example/"]]
    := by
  refine ⟨by decide, by decide⟩

/-- C5 (amended): `load_mirrors` returns each distinct trimmed line —
including the empty string arising from blank or whitespace-only lines —
exactly once, in order of first occurrence across the files processed in
the given priority order; a missing file contributes nothing and causes
no failure.  Formally the result is the first-occurrence deduplication of
the stream of trimmed lines of the present files. -/
theorem load_mirrors_eq_dedupKeepFirst (files : List (Option (List String))) :
    load_mirrors files = dedupKeepFirst (mirrorStream files) := by
  unfold load_mirrors
  rw [load_mirrors_foldl_stream files []]
  rw [foldl_insertMirror_eq (mirrorStream files) []]
  simp

/-! ## Claims C4, C6, C7, C8, C9: `Common.load_settings` /
`Common.save_settings` (lines 318-379)

The settings dictionary is modelled with one `Option` field per key of
`default_settings`; `none` means the key is absent from the loaded JSON
object.  The settings file can be absent (`FileNotFoundError`, caught),
a directory (`IsADirectoryError`, caught on read; raised again on
write), syntactically invalid (`json.JSONDecodeError`, *not* caught), or
a parsed object.  The legacy pickle file is `none` when opening it
raises one of the two caught errors and `some record` when it
deserializes to a settings record.  `start_is_file` is the live value of
`paths["tbb"]["start"].is_file()`. -/

/-- A settings dictionary: the keys of `default_settings`, each possibly
absent. -/
structure SettingsDict where
  tbl_version : Option String
  installed : Option Bool
  download_over_tor : Option Bool
  tor_socks_address : Option String
  mirror : Option String
deriving DecidableEq, Repr

/-- Contents of `paths["settings_file"]` as seen by `json.load`. -/
inductive JsonFile where
  | absent
  | isDir
  | malformed
  | obj (d : SettingsDict)
deriving DecidableEq, Repr

/-- The file-system state `load_settings` reads and writes. -/
structure FsState where
  settings_file : JsonFile
  settings_file_pickle : Option SettingsDict
  start_is_file : Bool
deriving DecidableEq, Repr

/-- `self.default_mirror` (set in `Common.__init__`). -/
def default_mirror : String := "https://dist.torproject.org/"

/-- The construction context: `self.tbl_version` passed to
`Common.__init__`. -/
structure Config where
  tbl_version : String
deriving DecidableEq, Repr

/-- `default_settings` as built at the top of `load_settings`. -/
def default_settings (cfg : Config) : SettingsDict where
  tbl_version := some cfg.tbl_version
  installed := some false
  download_over_tor := some false
  tor_socks_address := some "127.0.0.1:9050"
  mirror := some default_mirror

/-- `Common.save_settings`: `open(..., "w")` then `json.dump`.  Writing
raises `IsADirectoryError` when the settings path is a directory;
otherwise the file now holds the record. -/
def save_settings (d : SettingsDict) (st : FsState) : Except Unit FsState :=
  match st.settings_file with
  | .isDir => .error ()
  | _ => .ok { st with settings_file := .obj d }

/-- Python's `s.startswith(pre)`. -/
def pyStartsWith (s pre : String) : Bool :=
  pre.data.isPrefixOf s.data

/-- `settings["installed"] = self.paths["tbb"]["start"].is_file()`
(line 337). -/
def set_installed (start : Bool) (d : SettingsDict) : SettingsDict :=
  { d with installed := some start }

/-- The backfill loop (lines 340-342):
`for setting in default_settings.keys() - settings.keys():
settings[setting] = default_settings[setting]; resave = True`.
The pair carries the record together with the `resave` flag. -/
def backfill (cfg : Config) (p : SettingsDict × Bool) : SettingsDict × Bool :=
  let p1 := if p.1.tbl_version.isNone
    then ({ p.1 with tbl_version := (default_settings cfg).tbl_version }, true)
    else p
  let p2 := if p1.1.installed.isNone
    then ({ p1.1 with installed := (default_settings cfg).installed }, true)
    else p1
  let p3 := if p2.1.download_over_tor.isNone
    then ({ p2.1 with
            download_over_tor := (default_settings cfg).download_over_tor },
          true)
    else p2
  let p4 := if p3.1.tor_socks_address.isNone
    then ({ p3.1 with
            tor_socks_address := (default_settings cfg).tor_socks_address },
          true)
    else p3
  if p4.1.mirror.isNone
    then ({ p4.1 with mirror := (default_settings cfg).mirror }, true)
    else p4

/-- Lines 344-347: strip a leading `"tcp:"` from
`settings["tor_socks_address"]` (the key is always present here, having
been backfilled; the `none` branch is unreachable). -/
def strip_tcp (p : SettingsDict × Bool) : SettingsDict × Bool :=
  match p.1.tor_socks_address with
  | some a =>
    if pyStartsWith a "tcp:"
      then ({ p.1 with tor_socks_address := some (a.drop 4) }, true)
      else p
  | none => p

/-- Lines 349-352: force `settings["tbl_version"]` to the running
version. -/
def update_version (cfg : Config) (p : SettingsDict × Bool) :
    SettingsDict × Bool :=
  if p.1.tbl_version ≠ some cfg.tbl_version
    then ({ p.1 with tbl_version := some cfg.tbl_version }, true)
    else p

/-- The body of the `else` branch for a successfully parsed JSON object
(lines 333-357), returning the in-memory record and the `resave` flag. -/
def load_settings_json (cfg : Config) (d : SettingsDict) (start : Bool) :
    SettingsDict × Bool :=
  update_version cfg (strip_tcp (backfill cfg (set_installed start d, false)))

/-- `Common.load_settings`.  Returns the in-memory `self.settings`
together with the file-system state after the call; `.error ()` models
an uncaught exception (`json.JSONDecodeError` on a malformed file,
`IsADirectoryError` when writing to a directory path). -/
def load_settings (cfg : Config) (st : FsState) :
    Except Unit (SettingsDict × FsState) :=
  match st.settings_file with
  | .malformed => .error ()
  | .obj d =>
    let r := load_settings_json cfg d st.start_is_file
    if r.2 then
      match save_settings r.1 st with
      | .error e => .error e
      | .ok st2 => .ok (r.1, st2)
    else .ok (r.1, st)
  | .absent | .isDir =>
    match hpk : st.settings_file_pickle with
    | some p =>
      match save_settings p st with
      | .error e => .error e
      | .ok st2 => load_settings cfg { st2 with settings_file_pickle := none }
    | none =>
      match save_settings (default_settings cfg) st with
      | .error e => .error e
      | .ok st2 => .ok (default_settings cfg, st2)
termination_by if st.settings_file_pickle.isSome then 1 else 0
decreasing_by all_goals simp [hpk]

/-! ### Helper lemmas about the JSON branch of `load_settings` -/

lemma load_settings_json_fields (cfg : Config) (d : SettingsDict) (start : Bool) :
    (load_settings_json cfg d start).1.tbl_version = some cfg.tbl_version
    ∧ (load_settings_json cfg d start).1.installed = some start
    ∧ (load_settings_json cfg d start).1.download_over_tor.isSome = true
    ∧ (load_settings_json cfg d start).1.tor_socks_address.isSome = true
    ∧ (load_settings_json cfg d start).1.mirror.isSome = true := by
  have hps : pyStartsWith "127.0.0.1:9050" "tcp:" = false := by decide
  rcases d with ⟨tv, inst, dot, tsa, mir⟩
  unfold load_settings_json update_version strip_tcp backfill set_installed
  cases tv <;> cases dot <;> cases tsa <;> cases mir <;>
    simp [default_settings, default_mirror, hps] <;>
    split_ifs <;> simp_all

lemma load_settings_json_backfill_values (cfg : Config) (d : SettingsDict)
    (start : Bool) :
    (d.download_over_tor = none →
      (load_settings_json cfg d start).1.download_over_tor = some false)
    ∧ (d.tor_socks_address = none →
      (load_settings_json cfg d start).1.tor_socks_address
        = some "127.0.0.1:9050")
    ∧ (d.mirror = none →
      (load_settings_json cfg d start).1.mirror = some default_mirror) := by
  have hps : pyStartsWith "127.0.0.1:9050" "tcp:" = false := by decide
  rcases d with ⟨tv, inst, dot, tsa, mir⟩
  unfold load_settings_json update_version strip_tcp backfill set_installed
  cases tv <;> cases dot <;> cases tsa <;> cases mir <;>
    simp [default_settings, default_mirror, hps] <;>
    split_ifs <;> simp_all

lemma load_settings_json_strip (cfg : Config) (d : SettingsDict) (start : Bool)
    (a : String) (ha : d.tor_socks_address = some a)
    (hpre : pyStartsWith a "tcp:" = true) :
    (load_settings_json cfg d start).1.tor_socks_address = some (a.drop 4)
    ∧ (load_settings_json cfg d start).2 = true := by
  rcases d with ⟨tv, inst, dot, tsa, mir⟩
  simp only [SettingsDict.mk.injEq] at ha
  subst ha
  unfold load_settings_json update_version strip_tcp backfill set_installed
  cases tv <;> cases dot <;> cases mir <;>
    simp [default_settings, default_mirror, hpre] <;>
    split_ifs <;> simp_all

lemma load_settings_obj_eq (cfg : Config) (d : SettingsDict)
    (pk : Option SettingsDict) (b : Bool) :
    load_settings cfg ⟨.obj d, pk, b⟩
      = .ok ((load_settings_json cfg d b).1,
             if (load_settings_json cfg d b).2
               then ⟨.obj (load_settings_json cfg d b).1, pk, b⟩
               else ⟨.obj d, pk, b⟩) := by
  rw [load_settings.eq_def]
  dsimp only
  simp only [save_settings]
  by_cases h : (load_settings_json cfg d b).2 = true <;> simp [h]

lemma load_settings_absent_none (cfg : Config) (b : Bool) :
    load_settings cfg ⟨.absent, none, b⟩
      = .ok (default_settings cfg,
             ⟨.obj (default_settings cfg), none, b⟩) := by
  rw [load_settings.eq_def]
  dsimp only
  simp [save_settings]

lemma load_settings_ok_settings (cfg : Config) (d : SettingsDict)
    (pk : Option SettingsDict) (b : Bool) (s : SettingsDict) (st' : FsState)
    (h : load_settings cfg ⟨.obj d, pk, b⟩ = .ok (s, st')) :
    s = (load_settings_json cfg d b).1 := by
  rw [load_settings_obj_eq] at h
  simp only [Except.ok.injEq, Prod.mk.injEq] at h
  exact h.1.symm

/-! ### Claim theorems C4, C6, C7, C8, C9 -/

/-- C4 (amended): a missing settings file is treated as absent and (with
no legacy file either) triggers default construction, returning the
complete defaults record without raising; but a settings file whose
content is not well-formed JSON makes `json.JSONDecodeError` escape
(the `except` clause catches only `FileNotFoundError` and
`IsADirectoryError`), modelled by `.error ()`. -/
theorem load_settings_missing_defaults_malformed_raises (cfg : Config)
    (b : Bool) (pk : Option SettingsDict) :
    load_settings cfg ⟨.absent, none, b⟩
      = .ok (default_settings cfg, ⟨.obj (default_settings cfg), none, b⟩)
    ∧ load_settings cfg ⟨.malformed, pk, b⟩ = .error () := by
  refine ⟨load_settings_absent_none cfg b, ?_⟩
  rw [load_settings.eq_def]

/-- C4 counterexample: on a malformed settings file `load_settings`
raises (returns `.error ()`) instead of returning the defaults record —
refuting "treats the file as absent ... without raising". -/
theorem load_settings_malformed_not_defaults :
    load_settings ⟨"1.2.3"⟩ ⟨.malformed, none, false⟩ = .error ()
    ∧ load_settings ⟨"1.2.3"⟩ ⟨.malformed, none, false⟩
        ≠ .ok (default_settings ⟨"1.2.3"⟩,
               ⟨.obj (default_settings ⟨"1.2.3"⟩), none, false⟩) := by
  constructor
  · rw [load_settings.eq_def]
  · rw [load_settings.eq_def]
    simp

/-- C9: with neither a JSON settings file nor a legacy pickle file and
current version "1.2.3", `load_settings` returns exactly the defaults
record and writes the settings file with exactly that content. -/
theorem load_settings_no_files_defaults (b : Bool) :
    load_settings ⟨"1.2.3"⟩ ⟨.absent, none, b⟩
      = .ok (⟨some "1.2.3", some false, some false, some "127.0.0.1:9050",
              some "https://dist.torproject.org/"⟩,
             ⟨.obj ⟨some "1.2.3", some false, some false,
                    some "127.0.0.1:9050",
                    some "https://dist.torproject.org/"⟩, none, b⟩) := by
  rw [load_settings_absent_none]
  simp [default_settings, default_mirror]

/-- C6: with a legacy pickle record
`{tbl_version:"1.0.0", installed:true, download_over_tor:true,
tor_socks_address:"tcp:10.0.0.1:9050", mirror:"https://example.org/"}`
and no JSON file, `load_settings` persists the record as JSON, deletes
the legacy file, re-runs itself and terminates; the final JSON file
contains `tor_socks_address = "10.0.0.1:9050"` and `tbl_version` equal
to the running version `v`, and the legacy file is gone. -/
theorem load_settings_legacy_migration (v : String) (b : Bool) :
    load_settings ⟨v⟩
      ⟨.absent,
       some ⟨some "1.0.0", some true, some true, some "tcp:10.0.0.1:9050",
             some "https://example.org/"⟩, b⟩
      = .ok
        (⟨some v, some b, some true, some "10.0.0.1:9050",
          some "https://example.org/"⟩,
         ⟨.obj ⟨some v, some b, some true, some "10.0.0.1:9050",
                some "https://example.org/"⟩, none, b⟩) := by
  rw [load_settings.eq_def]
  dsimp only
  simp only [save_settings]
  rw [load_settings_obj_eq]
  have h1 : pyStartsWith "tcp:10.0.0.1:9050" "tcp:" = true := by decide
  have h2 : "tcp:10.0.0.1:9050".drop 4 = "10.0.0.1:9050" := by decide
  by_cases hv : v = "1.0.0"
  · subst hv
    simp [load_settings_json, update_version, strip_tcp, backfill,
      set_installed, h1, h2]
  · simp [load_settings_json, update_version, strip_tcp, backfill,
      set_installed, h1, h2, Ne.symm hv]

/-- C7 (amended): whenever `load_settings` returns normally, every field
of the defaults record is present in the returned settings and
`tbl_version` equals the running version; absent fields other than
`installed` are backfilled with the system default for that field, while
`installed` is always recomputed from the live presence of the browser
start file, regardless of the stored or default value. -/
theorem load_settings_fields (cfg : Config) (st : FsState) (s : SettingsDict)
    (st' : FsState) (h : load_settings cfg st = .ok (s, st')) :
    s.tbl_version = some cfg.tbl_version
    ∧ s.installed.isSome = true
    ∧ s.download_over_tor.isSome = true
    ∧ s.tor_socks_address.isSome = true
    ∧ s.mirror.isSome = true
    ∧ (∀ d, st.settings_file = .obj d →
        s.installed = some st.start_is_file
        ∧ (d.download_over_tor = none → s.download_over_tor = some false)
        ∧ (d.tor_socks_address = none →
            s.tor_socks_address = some "127.0.0.1:9050")
        ∧ (d.mirror = none → s.mirror = some default_mirror)) := by
  rcases st with ⟨sf, pk, b⟩
  cases sf with
  | malformed =>
    rw [load_settings.eq_def] at h
    exact absurd h (by simp)
  | obj d =>
    have hs := load_settings_ok_settings cfg d pk b s st' h
    subst hs
    refine ⟨(load_settings_json_fields cfg d b).1,
      by simp [(load_settings_json_fields cfg d b).2.1],
      (load_settings_json_fields cfg d b).2.2.1,
      (load_settings_json_fields cfg d b).2.2.2.1,
      (load_settings_json_fields cfg d b).2.2.2.2, ?_⟩
    intro d' hd'
    simp only [JsonFile.obj.injEq] at hd'
    subst hd'
    exact ⟨(load_settings_json_fields cfg d b).2.1,
      (load_settings_json_backfill_values cfg d b).1,
      (load_settings_json_backfill_values cfg d b).2.1,
      (load_settings_json_backfill_values cfg d b).2.2⟩
  | absent =>
    cases pk with
    | none =>
      rw [load_settings_absent_none] at h
      simp only [Except.ok.injEq, Prod.mk.injEq] at h
      obtain ⟨h1, -⟩ := h
      subst h1
      simp [default_settings]
    | some p =>
      rw [load_settings.eq_def] at h
      dsimp only at h
      simp only [save_settings] at h
      have hs := load_settings_ok_settings cfg p none b s st' h
      subst hs
      refine ⟨(load_settings_json_fields cfg p b).1,
        by simp [(load_settings_json_fields cfg p b).2.1],
        (load_settings_json_fields cfg p b).2.2.1,
        (load_settings_json_fields cfg p b).2.2.2.1,
        (load_settings_json_fields cfg p b).2.2.2.2, ?_⟩
      intro d' hd'
      exact absurd hd' (by simp)
  | isDir =>
    rw [load_settings.eq_def] at h
    dsimp only at h
    cases pk <;> simp [save_settings] at h

/-- C7 witness: applying `load_settings_fields` to a concrete load of a
settings file with every key absent (browser start file present). -/
theorem load_settings_fields_witness :
    (⟨some "1.2.3", some true, some false, some "127.0.0.1:9050",
      some default_mirror⟩ : SettingsDict).tbl_version = some "1.2.3"
    ∧ (⟨some "1.2.3", some true, some false, some "127.0.0.1:9050",
        some default_mirror⟩ : SettingsDict).installed = some true := by
  have h : load_settings ⟨"1.2.3"⟩
      ⟨.obj ⟨none, none, none, none, none⟩, none, true⟩
      = .ok (⟨some "1.2.3", some true, some false, some "127.0.0.1:9050",
              some default_mirror⟩,
             ⟨.obj ⟨some "1.2.3", some true, some false, some "127.0.0.1:9050",
                    some default_mirror⟩, none, true⟩) := by
    rw [load_settings_obj_eq]
    have hps : pyStartsWith "127.0.0.1:9050" "tcp:" = false := by decide
    simp [load_settings_json, update_version, strip_tcp, backfill,
      set_installed, default_settings, hps]
  have hmain := load_settings_fields ⟨"1.2.3"⟩
    ⟨.obj ⟨none, none, none, none, none⟩, none, true⟩ _ _ h
  exact ⟨hmain.1, (hmain.2.2.2.2.2 ⟨none, none, none, none, none⟩ rfl).1⟩

/-- C7 counterexample: loading a settings file in which `installed` is
absent while the browser start file exists yields `installed = true`,
not the system default `false` — refuting "absent fields backfilled with
the system default for that field" for the `installed` field. -/
theorem load_settings_installed_not_default :
    load_settings ⟨"1.2.3"⟩ ⟨.obj ⟨none, none, none, none, none⟩, none, true⟩
      = .ok (⟨some "1.2.3", some true, some false, some "127.0.0.1:9050",
              some default_mirror⟩,
             ⟨.obj ⟨some "1.2.3", some true, some false,
                    some "127.0.0.1:9050", some default_mirror⟩, none, true⟩)
    ∧ (⟨some "1.2.3", some true, some false, some "127.0.0.1:9050",
        some default_mirror⟩ : SettingsDict).installed
        ≠ (default_settings ⟨"1.2.3"⟩).installed := by
  constructor
  · rw [load_settings_obj_eq]
    have hps : pyStartsWith "127.0.0.1:9050" "tcp:" = false := by decide
    simp [load_settings_json, update_version, strip_tcp, backfill,
      set_installed, default_settings, hps]
  · simp [default_settings]

/-- C8 (amended): for every loaded settings record whose
`tor_socks_address` starts with `"tcp:"`, `load_settings` replaces it
with the suffix after that prefix (one strip, not iterated to a fixed
point) and persists the record in that form; a value with a single
prefix is thereby normalized, but a doubled prefix retains one
occurrence. -/
theorem load_settings_strips_tcp (cfg : Config) (d : SettingsDict)
    (pk : Option SettingsDict) (b : Bool) (a : String)
    (ha : d.tor_socks_address = some a)
    (hpre : pyStartsWith a "tcp:" = true) :
    load_settings cfg ⟨.obj d, pk, b⟩
      = .ok ((load_settings_json cfg d b).1,
             ⟨.obj (load_settings_json cfg d b).1, pk, b⟩)
    ∧ (load_settings_json cfg d b).1.tor_socks_address = some (a.drop 4) := by
  have hstrip := load_settings_json_strip cfg d b a ha hpre
  refine ⟨?_, hstrip.1⟩
  rw [load_settings_obj_eq]
  simp [hstrip.2]

/-- C8 witness: applying `load_settings_strips_tcp` to a record with
`tor_socks_address = "tcp:10.0.0.5:9051"`. -/
theorem load_settings_strips_tcp_witness :
    load_settings ⟨"1.2.3"⟩
      ⟨.obj ⟨some "1.2.3", some false, some false, some "tcp:10.0.0.5:9051",
             some "https://m.example/"⟩, none, false⟩
      = .ok ((load_settings_json ⟨"1.2.3"⟩
                ⟨some "1.2.3", some false, some false,
                 some "tcp:10.0.0.5:9051", some "https://m.example/"⟩
                false).1,
             ⟨.obj (load_settings_json ⟨"1.2.3"⟩
                      ⟨some "1.2.3", some false, some false,
                       some "tcp:10.0.0.5:9051", some "https://m.example/"⟩
                      false).1, none, false⟩)
    ∧ (load_settings_json ⟨"1.2.3"⟩
        ⟨some "1.2.3", some false, some false, some "tcp:10.0.0.5:9051",
         some "https://m.example/"⟩ false).1.tor_socks_address
        = some ("tcp:10.0.0.5:9051".drop 4) :=
  load_settings_strips_tcp ⟨"1.2.3"⟩
    ⟨some "1.2.3", some false, some false, some "tcp:10.0.0.5:9051",
     some "https://m.example/"⟩ none false "tcp:10.0.0.5:9051" rfl (by decide)

/-- C8 counterexample: a `tor_socks_address` of `"tcp:tcp:127.0.0.1:9050"`
is stripped only once, so after load the in-memory and persisted value
`"tcp:127.0.0.1:9050"` still starts with the legacy prefix — refuting
"after load the stored and in-memory tor_socks_address never carries the
prefix". -/
theorem load_settings_double_tcp_prefix_survives :
    load_settings ⟨"1.2.3"⟩
      ⟨.obj ⟨some "1.2.3", some false, some false,
             some "tcp:tcp:127.0.0.1:9050", some "https://m.example/"⟩,
       none, false⟩
      = .ok (⟨some "1.2.3", some false, some false,
              some "tcp:127.0.0.1:9050", some "https://m.example/"⟩,
             ⟨.obj ⟨some "1.2.3", some false, some false,
                    some "tcp:127.0.0.1:9050", some "https://m.example/"⟩,
              none, false⟩)
    ∧ pyStartsWith "tcp:127.0.0.1:9050" "tcp:" = true := by
  constructor
  · rw [load_settings_obj_eq]
    have h1 : pyStartsWith "tcp:tcp:127.0.0.1:9050" "tcp:" = true := by decide
    have h2 : "tcp:tcp:127.0.0.1:9050".drop 4 = "tcp:127.0.0.1:9050" := by
      decide
    simp [load_settings_json, update_version, strip_tcp, backfill,
      set_installed, h1, h2]
  · decide
